import Mathlib

/-!
Shallow embedding of the Switch MQTT telemetry agent (v0.6 sources):
the command protocol handler, the reconnection backoff logic, the main
control loop blocks, the producer (sampling) thread scheduling, and the
telemetry JSON payload builder. Definitions are translated from the C
sources; machine integers are modelled as Nat (or Int) with explicit
reduction modulo 2^32 or 2^64 where the C arithmetic can wrap.
-/

set_option maxRecDepth 10000
set_option maxHeartbeats 1000000

namespace SwitchMQTT

/-! Constants from source/config.h. -/

def TELEMETRY_INTERVAL_MS : Nat := 5000

def SENSOR_POLL_BATTERY_MS : Nat := 30000

def SENSOR_POLL_TEMP_MS : Nat := 10000

def SENSOR_POLL_WIFI_MS : Nat := 5000

def MQTT_RECONNECT_DELAY_MS : Nat := 1000

def MQTT_RECONNECT_MAX_MS : Nat := 30000

def MQTT_YIELD_MS : Nat := 10

/-- Modulus of a C u32. -/
def U32 : Nat := 4294967296

/-- Modulus of a C u64. -/
def U64 : Nat := 18446744073709551616

/-! JSON values as produced and consumed through the cJSON library
(treated as an external collaborator: parse, object lookup, type
tests, construction). Numbers carry an Int; the C code stores cJSON
numbers as doubles and casts them to u32 at each use site. -/

inductive Json where
  | null : Json
  | jbool : Bool → Json
  | num : Int → Json
  | str : String → Json
  | obj : List (String × Json) → Json

/-- Lookup of the first binding of a key in a cJSON object field list. -/
def lookupField : List (String × Json) → String → Option Json
  | [], _ => none
  | (k, v) :: rest, key => if k = key then some v else lookupField rest key

/-- Model of cJSON_GetObjectItem: first field with the given name, or none. -/
def getObjectItem : Json → String → Option Json
  | Json.obj fields, key => lookupField fields key
  | _, _ => none

/-- Model of the cast `(u32)valuedouble` as compiled for AArch64: the
fcvtzu instruction saturates out-of-range values instead of wrapping. -/
def u32_of_num (v : Int) : Nat := (max 0 (min v 4294967295)).toNat

/-- clamp_u32 from main.c: clamp a u32 value to the interval lo..hi. -/
def clamp_u32 (val lo hi : Nat) : Nat :=
  if val < lo then lo else if val > hi then hi else val

/-! Sensor readings and the shared telemetry buffer (telemetry.h). -/

inductive ChargerType where
  | unconnected
  | enoughPower
  | lowPower
  | notSupported
deriving DecidableEq

structure BatteryReading where
  percentage : Nat
  voltage_mv : Nat
  temperature_c : Int
  charging : Bool
  charger_type : ChargerType
deriving DecidableEq

structure TemperatureReading where
  soc_celsius : Int
  pcb_celsius : Int
deriving DecidableEq

structure WifiReading where
  connected : Bool
  signal_bars : Nat
  rssi_dbm : Int
  ip_addr : Nat
deriving DecidableEq

inductive MqttState where
  | disconnected
  | connecting
  | connected
  | reconnecting
deriving DecidableEq

/-- telemetry_shared_t: the mutex-guarded shared buffer. The mutex
itself is a concurrency primitive with no data content and is omitted. -/
structure Shared where
  battery : BatteryReading
  temperature : TemperatureReading
  wifi : WifiReading
  battery_valid : Bool
  temperature_valid : Bool
  wifi_valid : Bool
  mqtt_state : MqttState
  publish_count : Nat
  last_publish_tick : Nat
  telemetry_interval_ms : Nat
  poll_battery_ms : Nat
  poll_temp_ms : Nat
  poll_wifi_ms : Nat
  cmd_count : Nat
  last_cmd : String
deriving DecidableEq

/-- File-scope statics of main.c used by the command handler, together
with the shared buffer they mutate. -/
structure CmdState where
  shared : Shared
  publish_now : Bool
  identify_until : Nat
  response_buf : String
  has_response : Bool
deriving DecidableEq

/-- Model of strncpy(dst, src, 31) followed by dst[31] = 0: keep the
first 31 characters. Defined through List.take so that it reduces
structurally. -/
def strncpy31 (s : String) : String := String.mk (s.data.take 31)

/-- Truncation applied by snprintf into the 256-byte g_response_buf:
keep the first 255 characters. -/
def snprintf255 (s : String) : String := String.mk (s.data.take 255)

/-! Response payloads staged by the command handler. -/

/-- Ack payload for set_interval, as formatted by snprintf in main.c. -/
def respSetInterval (ms : Nat) : String :=
  snprintf255 ("\x7b\"cmd\":\"ack\",\"original\":\"set_interval\",\"value\":"
    ++ toString ms ++ "\x7d")

/-- Ack payload for set_poll_rate, as formatted by snprintf in main.c. -/
def respSetPollRate (s : String) (ms : Nat) : String :=
  snprintf255 ("\x7b\"cmd\":\"ack\",\"original\":\"set_poll_rate\",\"sensor\":\""
    ++ s ++ "\",\"value\":" ++ toString ms ++ "\x7d")

/-- Pong payload for ping, as formatted by snprintf in main.c. -/
def respPong (uptime_s : Nat) : String :=
  snprintf255 ("\x7b\"cmd\":\"pong\",\"uptime_s\":" ++ toString uptime_s ++ "\x7d")

/-- Calls the handler makes to the outside: invoking the cJSON parse on
the payload buffer, and staging a response payload. -/
inductive HAct where
  | parseCall : HAct
  | stage : String → HAct
deriving DecidableEq

/-- The body of command_handler after the cmd string is extracted:
update the command stats, then run the recognized-command chain.
Factored out of command_handler for direct reasoning. -/
def command_handler_cmd (st : CmdState) (startTick now freq : Nat)
    (root : Json) (cmd : String) : CmdState × List HAct :=
  let st := { st with shared := { st.shared with
    cmd_count := (st.shared.cmd_count + 1) % U32,
    last_cmd := strncpy31 cmd } }
  if cmd = "set_interval" then
    match getObjectItem root "value" with
    | some (Json.num v) =>
      let ms := clamp_u32 (u32_of_num v) 1000 60000
      let resp := respSetInterval ms
      ({ st with
          shared := { st.shared with telemetry_interval_ms := ms },
          response_buf := resp,
          has_response := true },
       [HAct.parseCall, HAct.stage resp])
    | _ => (st, [HAct.parseCall])
  else if cmd = "set_poll_rate" then
    match getObjectItem root "sensor", getObjectItem root "value" with
    | some (Json.str s), some (Json.num v) =>
      let ms := clamp_u32 (u32_of_num v) 1000 300000
      let shared :=
        if s = "battery" then { st.shared with poll_battery_ms := ms }
        else if s = "temp" then { st.shared with poll_temp_ms := ms }
        else if s = "wifi" then { st.shared with poll_wifi_ms := ms }
        else st.shared
      let resp := respSetPollRate s ms
      ({ st with
          shared := shared,
          response_buf := resp,
          has_response := true },
       [HAct.parseCall, HAct.stage resp])
    | _, _ => (st, [HAct.parseCall])
  else if cmd = "ping" then
    let resp := respPong ((now - startTick) / freq)
    ({ st with response_buf := resp, has_response := true },
     [HAct.parseCall, HAct.stage resp])
  else if cmd = "identify" then
    ({ st with identify_until := (now + 3 * freq) % U64 },
     [HAct.parseCall])
  else if cmd = "publish_now" then
    ({ st with publish_now := true }, [HAct.parseCall])
  else (st, [HAct.parseCall])

/-- The body of command_handler after a successful parse: extract the
cmd field, require it to be a string, then handle the command. -/
def command_handler_obj (st : CmdState) (startTick now freq : Nat)
    (root : Json) : CmdState × List HAct :=
  match getObjectItem root "cmd" with
  | some (Json.str cmd) => command_handler_cmd st startTick now freq root cmd
  | _ => (st, [HAct.parseCall])

/-- command_handler from main.c v0.6. Inputs: the handler state, the
start tick, the current tick and tick frequency, the payload length,
and the result the cJSON parse would give on the payload bytes (cJSON
is external; a payload that is not valid JSON parses to none). Returns
the new state and the trace of external calls made. -/
def command_handler (st : CmdState) (startTick now freq : Nat)
    (payloadlen : Nat) (parsed : Option Json) : CmdState × List HAct :=
  if 512 ≤ payloadlen then (st, [])
  else
    match parsed with
    | none => (st, [HAct.parseCall])
    | some root => command_handler_obj st startTick now freq root

/-! Producer thread (telemetry.c). The thread independently checks,
for each sensor, whether that sensor is due, performs the read outside
the lock, and reschedules the sensor. -/

/-- ms_to_ticks from telemetry.c, with the tick frequency passed in. -/
def ms_to_ticks (ms freq : Nat) : Nat := ms * freq / 1000

/-- tick_expired from telemetry.c: the current tick reached the target. -/
def tick_expired (now target : Nat) : Bool := target ≤ now

/-- Per-sensor deadlines kept by producer_thread_entry. -/
structure ProducerState where
  next_battery : Nat
  next_temp : Nat
  next_wifi : Nat
deriving DecidableEq

/-- External inputs of one producer loop iteration: the tick counter
values read by the successive armGetSystemTick calls, the tick
frequency, and the outcome of each HAL sensor read (none models a
failed read, which leaves the shared buffer untouched). -/
structure ProducerEnv where
  bCheck : Nat
  bSched : Nat
  tCheck : Nat
  tSched : Nat
  wCheck : Nat
  wSched : Nat
  freq : Nat
  battery_read : Option BatteryReading
  temp_read : Option TemperatureReading
  wifi_read : Option WifiReading

/-- One iteration of the while loop in producer_thread_entry. Each due
sensor is read, the result copied into the shared buffer under the
lock, and the sensor rescheduled at now plus the compile-time poll
interval macro. -/
def producer_iter (shared : Shared) (st : ProducerState) (e : ProducerEnv) :
    Shared × ProducerState :=
  let r1 :=
    if tick_expired e.bCheck st.next_battery then
      (match e.battery_read with
        | some r => { shared with battery := r, battery_valid := true }
        | none => shared,
       { st with
         next_battery := e.bSched + ms_to_ticks SENSOR_POLL_BATTERY_MS e.freq })
    else (shared, st)
  let r2 :=
    if tick_expired e.tCheck r1.2.next_temp then
      (match e.temp_read with
        | some r => { r1.1 with temperature := r, temperature_valid := true }
        | none => r1.1,
       { r1.2 with
         next_temp := e.tSched + ms_to_ticks SENSOR_POLL_TEMP_MS e.freq })
    else r1
  if tick_expired e.wCheck r2.2.next_wifi then
    (match e.wifi_read with
      | some r => { r2.1 with wifi := r, wifi_valid := true }
      | none => r2.1,
     { r2.2 with
       next_wifi := e.wSched + ms_to_ticks SENSOR_POLL_WIFI_MS e.freq })
  else r2

/-! Telemetry JSON payload builder (telemetry.c). The message is
modelled as the cJSON object tree handed to cJSON_PrintUnformatted;
serialization itself is the external library. -/

/-- charger_type_str from telemetry.c. -/
def charger_type_str : ChargerType → String
  | ChargerType.unconnected => "Unplugged"
  | ChargerType.enoughPower => "Charging"
  | ChargerType.lowPower => "Low Power"
  | ChargerType.notSupported => "Unsupported"

/-- Model of inet_ntoa on an in_addr whose s_addr holds the address in
network byte order: dotted quad, lowest byte first. -/
def inet_ntoa (ip : Nat) : String :=
  toString (ip % 256) ++ "." ++ toString (ip / 256 % 256) ++ "."
    ++ toString (ip / 65536 % 256) ++ "." ++ toString (ip / 16777216 % 256)

/-- build_json_payload from telemetry.c: the top-level object gains a
battery, temperature and wifi member exactly when the corresponding
validity flag is set. -/
def build_json_payload (snap : Shared) : Json :=
  Json.obj
    ((if snap.battery_valid then
        [("battery", Json.obj
          [("percentage", Json.num snap.battery.percentage),
           ("voltage_mv", Json.num snap.battery.voltage_mv),
           ("temperature_c", Json.num snap.battery.temperature_c),
           ("charging", Json.jbool snap.battery.charging),
           ("charger_type", Json.str (charger_type_str snap.battery.charger_type))])]
      else [])
    ++ (if snap.temperature_valid then
        [("temperature", Json.obj
          [("soc_celsius", Json.num snap.temperature.soc_celsius),
           ("pcb_celsius", Json.num snap.temperature.pcb_celsius)])]
      else [])
    ++ (if snap.wifi_valid then
        [("wifi", Json.obj
          ([("connected", Json.jbool snap.wifi.connected),
            ("signal_bars", Json.num snap.wifi.signal_bars)]
           ++ (if snap.wifi.rssi_dbm ≠ 0 then
                [("rssi_dbm", Json.num snap.wifi.rssi_dbm)] else [])
           ++ (if snap.wifi.connected then
                [("ip", Json.str (inet_ntoa snap.wifi.ip_addr))] else [])))]
      else []))

/-- telemetry_build_json: snapshot the shared buffer under the lock,
then build the payload from the copy. -/
def telemetry_build_json (shared : Shared) : Json :=
  build_json_payload shared

/-- Top-level member names of a JSON object. -/
def topKeys : Json → List String
  | Json.obj fields => fields.map Prod.fst
  | _ => []

/-! Main control loop (main.c v0.6). One iteration runs, in order: the
reconnection block, the yield block (incoming dispatch plus staged
response publish), the silent-disconnect sync, and the publish block.
The UI refresh only reads state and is omitted. -/

/-- State carried across loop iterations: the command-handler state
(with the shared buffer), the Paho client connected flag, whether the
command-topic handler slot is registered, the open TCP socket flag,
and the reconnection bookkeeping locals of main. -/
structure LoopState where
  cmd : CmdState
  isconnected : Bool
  subscribed : Bool
  net_open : Bool
  last_publish : Nat
  next_reconnect : Nat
  reconnect_delay_ms : Nat
deriving DecidableEq

/-- External inputs of one loop iteration: the tick counter and its
frequency, the application start tick, the outcome the transport and
broker would give a connect attempt, the command messages MQTTYield
would dispatch (payload length and parse result each), whether the
Paho keepalive keeps the client connected through the yield, whether
the cJSON build succeeds, and the outcome of the telemetry publish. -/
structure LoopEnv where
  now : Nat
  freq : Nat
  start_tick : Nat
  tcp_ok : Bool
  connack_ok : Bool
  incoming : List (Nat × Option Json)
  yield_keeps_conn : Bool
  json_built : Bool
  publish_ok : Bool

/-- Externally visible events of one loop iteration, in program order. -/
inductive Ev where
  | connAttempt : Ev
  | connOk : Ev
  | connFail : Ev
  | subscribeCmd : Ev
  | yieldCall : Ev
  | pubResponse : String → Ev
  | pubTelemetry : Bool → Ev
  | forceDisc : Ev
deriving DecidableEq

/-- Write the shared mqtt_state field. -/
def setMqttState (s : LoopState) (v : MqttState) : LoopState :=
  { s with cmd := { s.cmd with shared := { s.cmd.shared with mqtt_state := v } } }

/-- mqtt_try_connect from main.c v0.6: CONNECTING, TCP connect, client
init (which clears the connected flag and the handler slots), MQTT
CONNECT; on failure tear down and return to DISCONNECTED. Returns the
new state and whether the attempt succeeded. -/
def mqtt_try_connect (s : LoopState) (e : LoopEnv) : LoopState × Bool :=
  let s := setMqttState s MqttState.connecting
  if e.tcp_ok then
    let s := { s with net_open := true, isconnected := false, subscribed := false }
    if e.connack_ok then
      ({ setMqttState s MqttState.connected with isconnected := true }, true)
    else
      ({ setMqttState s MqttState.disconnected with net_open := false }, false)
  else
    (setMqttState s MqttState.disconnected, false)

/-- mqtt_subscribe_commands: register the command-topic handler and
send the SUBSCRIBE (the call result is ignored by the caller). -/
def mqtt_subscribe_commands (s : LoopState) : LoopState :=
  { s with subscribed := true }

/-- mqtt_force_disconnect from main.c v0.6: close the transport, force
DISCONNECTED, schedule the next reconnect attempt at the initial
delay, and reset the backoff. -/
def mqtt_force_disconnect (s : LoopState) (now freq : Nat) : LoopState :=
  { setMqttState s MqttState.disconnected with
    net_open := false,
    next_reconnect := (now + MQTT_RECONNECT_DELAY_MS * freq / 1000) % U64,
    reconnect_delay_ms := MQTT_RECONNECT_DELAY_MS }

/-- Backoff update after a failed attempt: double the u32 delay, then
cap at MQTT_RECONNECT_MAX_MS. -/
def backoff_next (delay : Nat) : Nat :=
  let d := (delay * 2) % U32
  if MQTT_RECONNECT_MAX_MS < d then MQTT_RECONNECT_MAX_MS else d

/-- The reconnection block of the main loop: when DISCONNECTED and the
scheduled retry time has passed, attempt a connect; on success reset
the backoff and re-subscribe to the command topic; on failure schedule
the next attempt at now plus the current delay, then advance the
backoff. -/
def reconnect_block (s : LoopState) (e : LoopEnv) : LoopState × List Ev :=
  if s.cmd.shared.mqtt_state = MqttState.disconnected ∧ s.next_reconnect ≤ e.now then
    let s1 := setMqttState s MqttState.reconnecting
    let r := mqtt_try_connect s1 e
    let s2 := r.1
    let ok := r.2
    if ok then
      (mqtt_subscribe_commands
        { s2 with reconnect_delay_ms := MQTT_RECONNECT_DELAY_MS },
       [Ev.connAttempt, Ev.connOk, Ev.subscribeCmd])
    else
      ({ s2 with
          next_reconnect := (e.now + s.reconnect_delay_ms * e.freq / 1000) % U64,
          reconnect_delay_ms := backoff_next s.reconnect_delay_ms },
       [Ev.connAttempt, Ev.connFail])
  else (s, [])

/-- The dispatch MQTTYield performs: each arriving command-topic
message is handed to the registered handler; with no handler slot
registered nothing is dispatched. -/
def yield_dispatch (c : CmdState) (startTick now freq : Nat)
    (msgs : List (Nat × Option Json)) : CmdState :=
  msgs.foldl (fun c m => (command_handler c startTick now freq m.1 m.2).1) c

/-- The yield block of the main loop: when the client is connected,
run MQTTYield (dispatching incoming commands; the Paho keepalive may
internally drop the connected flag), then publish any staged response
and clear the staging flag (the publish result is ignored). -/
def yield_block (s : LoopState) (e : LoopEnv) : LoopState × List Ev :=
  if s.isconnected then
    let s1 :=
      if s.subscribed then
        { s with cmd := yield_dispatch s.cmd e.start_tick e.now e.freq e.incoming }
      else s
    let s1 := if e.yield_keeps_conn then s1 else { s1 with isconnected := false }
    if s1.cmd.has_response then
      ({ s1 with cmd := { s1.cmd with has_response := false } },
       [Ev.yieldCall, Ev.pubResponse s1.cmd.response_buf])
    else (s1, [Ev.yieldCall])
  else (s, [])

/-- The silent-disconnect sync of the main loop: if Paho dropped the
connected flag while the shared state still says CONNECTED, force the
disconnect so the reconnection logic triggers. -/
def silent_sync_block (s : LoopState) (e : LoopEnv) : LoopState × List Ev :=
  if s.isconnected = false ∧ s.cmd.shared.mqtt_state = MqttState.connected then
    (mqtt_force_disconnect s e.now e.freq, [Ev.forceDisc])
  else (s, [])

/-- The telemetry publish block of the main loop: publish when the
runtime-configured interval has elapsed or an immediate publish was
requested; on success bump the counters, on failure force the
disconnect in this same iteration. -/
def publish_block (s : LoopState) (e : LoopEnv) : LoopState × List Ev :=
  let interval_ms := s.cmd.shared.telemetry_interval_ms
  let do_publish :=
    (ms_to_ticks interval_ms e.freq ≤ e.now - s.last_publish) || s.cmd.publish_now
  let s := if s.cmd.publish_now then
      { s with cmd := { s.cmd with publish_now := false } }
    else s
  if do_publish && s.isconnected then
    let s := { s with last_publish := e.now }
    if e.json_built then
      if e.publish_ok then
        ({ s with cmd := { s.cmd with shared := { s.cmd.shared with
            publish_count := (s.cmd.shared.publish_count + 1) % U32,
            last_publish_tick := e.now } } },
         [Ev.pubTelemetry true])
      else
        (mqtt_force_disconnect s e.now e.freq,
         [Ev.pubTelemetry false, Ev.forceDisc])
    else (s, [])
  else (s, [])

/-- One full iteration of the main control loop, blocks in source
order, with the concatenated event trace. -/
def loop_iter (s : LoopState) (e : LoopEnv) : LoopState × List Ev :=
  let r1 := reconnect_block s e
  let r2 := yield_block r1.1 e
  let r3 := silent_sync_block r2.1 e
  let r4 := publish_block r3.1 e
  (r4.1, r1.2 ++ r2.2 ++ r3.2 ++ r4.2)

/-- The startup connect before the main loop: one connect attempt, and
on success the command-topic subscription. -/
def startup_connect (s : LoopState) (e : LoopEnv) : LoopState × List Ev :=
  let r := mqtt_try_connect s e
  if r.2 then
    (mqtt_subscribe_commands r.1, [Ev.connAttempt, Ev.connOk, Ev.subscribeCmd])
  else (r.1, [Ev.connAttempt, Ev.connFail])

/-! Concrete fixtures used by witnesses and counterexamples: the shared
buffer as main initializes it (memset to zero, then the compile-time
interval defaults), and sample command payloads. -/

def battery0 : BatteryReading :=
  { percentage := 0, voltage_mv := 0, temperature_c := 0,
    charging := false, charger_type := ChargerType.unconnected }

def temperature0 : TemperatureReading :=
  { soc_celsius := 0, pcb_celsius := 0 }

def wifi0 : WifiReading :=
  { connected := false, signal_bars := 0, rssi_dbm := 0, ip_addr := 0 }

/-- g_shared right after initialization in main (v0.6). -/
def shared0 : Shared :=
  { battery := battery0, temperature := temperature0, wifi := wifi0,
    battery_valid := false, temperature_valid := false, wifi_valid := false,
    mqtt_state := MqttState.disconnected,
    publish_count := 0, last_publish_tick := 0,
    telemetry_interval_ms := TELEMETRY_INTERVAL_MS,
    poll_battery_ms := SENSOR_POLL_BATTERY_MS,
    poll_temp_ms := SENSOR_POLL_TEMP_MS,
    poll_wifi_ms := SENSOR_POLL_WIFI_MS,
    cmd_count := 0, last_cmd := "" }

/-- Command-handler statics right after startup. -/
def cmd0 : CmdState :=
  { shared := shared0, publish_now := false, identify_until := 0,
    response_buf := "", has_response := false }

/-! Theorems about the embedded program. -/

/-- Helper: the command stats update is common to every branch of the
recognized-command chain. -/
theorem command_handler_cmd_count (st : CmdState) (startTick now freq : Nat)
    (root : Json) (c : String) :
    (command_handler_cmd st startTick now freq root c).1.shared.cmd_count
      = (st.shared.cmd_count + 1) % U32 := by
  unfold command_handler_cmd
  repeat' split
  all_goals rfl

/-- Helper: every branch of the recognized-command chain records the
command name truncated to 31 characters. -/
theorem command_handler_cmd_last (st : CmdState) (startTick now freq : Nat)
    (root : Json) (c : String) :
    (command_handler_cmd st startTick now freq root c).1.shared.last_cmd
      = strncpy31 c := by
  unfold command_handler_cmd
  repeat' split
  all_goals rfl

/-- C4: for every well-formed set_interval command with numeric value
v, the applied telemetry publish interval equals clamp(v, 1000, 60000):
1000 for all v up to 1000, 60000 for all v from 60000 up, v itself in
between; and the staged ack response carries the applied value. -/
theorem C4_set_interval_clamped
    (st : CmdState) (startTick now freq len : Nat) (root : Json) (v : Int)
    (hlen : len < 512)
    (hcmd : getObjectItem root "cmd" = some (Json.str "set_interval"))
    (hval : getObjectItem root "value" = some (Json.num v)) :
    ((command_handler st startTick now freq len (some root)).1.shared.telemetry_interval_ms
        = clamp_u32 (u32_of_num v) 1000 60000)
      ∧ (v ≤ 1000 →
          (command_handler st startTick now freq len (some root)).1.shared.telemetry_interval_ms = 1000)
      ∧ (60000 ≤ v →
          (command_handler st startTick now freq len (some root)).1.shared.telemetry_interval_ms = 60000)
      ∧ (1000 ≤ v → v ≤ 60000 →
          ((command_handler st startTick now freq len (some root)).1.shared.telemetry_interval_ms : Int) = v)
      ∧ ((command_handler st startTick now freq len (some root)).1.response_buf
          = respSetInterval (clamp_u32 (u32_of_num v) 1000 60000))
      ∧ ((command_handler st startTick now freq len (some root)).1.has_response = true) := by
  have h512 : ¬ (512 ≤ len) := by omega
  have hlo : ∀ w : Int, w ≤ 1000 → clamp_u32 (u32_of_num w) 1000 60000 = 1000 := by
    intro w h
    simp only [clamp_u32, u32_of_num]
    split
    · omega
    · split <;> omega
  have hhi : ∀ w : Int, 60000 ≤ w → clamp_u32 (u32_of_num w) 1000 60000 = 60000 := by
    intro w h
    simp only [clamp_u32, u32_of_num]
    split
    · omega
    · split <;> omega
  have hmid : ∀ w : Int, 1000 ≤ w → w ≤ 60000 →
      (clamp_u32 (u32_of_num w) 1000 60000 : Int) = w := by
    intro w h1 h2
    simp only [clamp_u32, u32_of_num]
    split
    · omega
    · split <;> omega
  simp only [command_handler, command_handler_obj, command_handler_cmd,
    if_neg h512, hcmd, hval]
  refine ⟨by simp, fun h => ?_, fun h => ?_, fun h1 h2 => ?_, by simp, by simp⟩
  · simpa using hlo v h
  · simpa using hhi v h
  · simpa using hmid v h1 h2

/-- C4 witness: the theorem applied to the concrete command payload
with value 500 yields the clamped interval 1000. -/
theorem C4_set_interval_clamped_witness :
    ((40 : Nat) < 512)
      ∧ (command_handler cmd0 0 0 1 40
          (some (Json.obj [("cmd", Json.str "set_interval"),
                           ("value", Json.num 500)]))).1.shared.telemetry_interval_ms = 1000 := by
  refine ⟨by omega, ?_⟩
  have h := C4_set_interval_clamped cmd0 0 0 1 40
    (Json.obj [("cmd", Json.str "set_interval"), ("value", Json.num 500)]) 500
    (by omega) (by rfl) (by rfl)
  exact h.2.1 (by omega)

/-- C6: an oversized payload makes the handler return before the parse
with no state change and no staged response; a payload that fails the
cJSON parse, or whose parse lacks a string cmd field, likewise leaves
the state unchanged and stages nothing (only the parse call happens). -/
theorem C6_malformed_payloads_inert :
    (∀ (st : CmdState) (startTick now freq len : Nat) (p : Option Json),
      512 ≤ len →
      command_handler st startTick now freq len p = (st, []))
    ∧ (∀ (st : CmdState) (startTick now freq len : Nat),
        len < 512 →
        command_handler st startTick now freq len none = (st, [HAct.parseCall]))
    ∧ (∀ (st : CmdState) (startTick now freq len : Nat) (root : Json),
        len < 512 →
        (∀ c : String, getObjectItem root "cmd" ≠ some (Json.str c)) →
        command_handler st startTick now freq len (some root) = (st, [HAct.parseCall])) := by
  refine ⟨?_, ?_, ?_⟩
  · intro st startTick now freq len p h
    unfold command_handler
    rw [if_pos h]
  · intro st startTick now freq len h
    have h512 : ¬ (512 ≤ len) := by omega
    unfold command_handler
    rw [if_neg h512]
  · intro st startTick now freq len root h hcmd
    have h512 : ¬ (512 ≤ len) := by omega
    rcases hx : getObjectItem root "cmd" with _ | j
    · simp only [command_handler, command_handler_obj, if_neg h512, hx]
    · cases j with
      | str c => exact absurd hx (hcmd c)
      | null => simp only [command_handler, command_handler_obj, if_neg h512, hx]
      | jbool b => simp only [command_handler, command_handler_obj, if_neg h512, hx]
      | num n => simp only [command_handler, command_handler_obj, if_neg h512, hx]
      | obj fields => simp only [command_handler, command_handler_obj, if_neg h512, hx]

/-- C6 witness: the three conjuncts applied at an oversized payload, a
failed parse, and an object whose cmd field is a number. -/
theorem C6_malformed_payloads_inert_witness :
    ((512 : Nat) ≤ 600
      ∧ command_handler cmd0 0 0 1 600 (some (Json.str "x")) = (cmd0, []))
    ∧ ((40 : Nat) < 512
      ∧ command_handler cmd0 0 0 1 40 none = (cmd0, [HAct.parseCall]))
    ∧ (command_handler cmd0 0 0 1 40
        (some (Json.obj [("cmd", Json.num 7)])) = (cmd0, [HAct.parseCall])) := by
  refine ⟨⟨by omega, C6_malformed_payloads_inert.1 cmd0 0 0 1 600 _ (by omega)⟩,
          ⟨by omega, C6_malformed_payloads_inert.2.1 cmd0 0 0 1 40 (by omega)⟩,
          C6_malformed_payloads_inert.2.2 cmd0 0 0 1 40 _ (by omega) ?_⟩
  intro c h
  simp [getObjectItem, lookupField] at h

/-- C7: a well-formed set_poll_rate command whose sensor field is a
string other than battery, temp or wifi leaves all three per-sensor
poll intervals and the telemetry publish interval unchanged, while the
command counter still increments by one. -/
theorem C7_unknown_sensor_config_unchanged
    (st : CmdState) (startTick now freq len : Nat) (root : Json) (s : String)
    (hlen : len < 512)
    (hcmd : getObjectItem root "cmd" = some (Json.str "set_poll_rate"))
    (hsensor : getObjectItem root "sensor" = some (Json.str s))
    (hb : s ≠ "battery") (ht : s ≠ "temp") (hw : s ≠ "wifi") :
    ((command_handler st startTick now freq len (some root)).1.shared.poll_battery_ms
        = st.shared.poll_battery_ms)
      ∧ ((command_handler st startTick now freq len (some root)).1.shared.poll_temp_ms
          = st.shared.poll_temp_ms)
      ∧ ((command_handler st startTick now freq len (some root)).1.shared.poll_wifi_ms
          = st.shared.poll_wifi_ms)
      ∧ ((command_handler st startTick now freq len (some root)).1.shared.telemetry_interval_ms
          = st.shared.telemetry_interval_ms)
      ∧ ((command_handler st startTick now freq len (some root)).1.shared.cmd_count
          = (st.shared.cmd_count + 1) % U32) := by
  have h512 : ¬ (512 ≤ len) := by omega
  rcases hv : getObjectItem root "value" with _ | j
  · simp [command_handler, command_handler_obj, command_handler_cmd,
      if_neg h512, hcmd, hv]
  · cases j with
    | num n =>
      simp [command_handler, command_handler_obj, command_handler_cmd,
        if_neg h512, hcmd, hsensor, hv, hb, ht, hw]
    | null => simp [command_handler, command_handler_obj, command_handler_cmd,
        if_neg h512, hcmd, hsensor, hv]
    | jbool b => simp [command_handler, command_handler_obj, command_handler_cmd,
        if_neg h512, hcmd, hsensor, hv]
    | str t => simp [command_handler, command_handler_obj, command_handler_cmd,
        if_neg h512, hcmd, hsensor, hv]
    | obj fields => simp [command_handler, command_handler_obj, command_handler_cmd,
        if_neg h512, hcmd, hsensor, hv]

/-- C7 witness: the theorem applied to a set_poll_rate command naming
the unknown sensor gyro. -/
theorem C7_unknown_sensor_config_unchanged_witness :
    ((command_handler cmd0 0 0 1 60
        (some (Json.obj [("cmd", Json.str "set_poll_rate"),
                         ("sensor", Json.str "gyro"),
                         ("value", Json.num 2000)]))).1.shared.poll_battery_ms
      = cmd0.shared.poll_battery_ms)
    ∧ ((command_handler cmd0 0 0 1 60
        (some (Json.obj [("cmd", Json.str "set_poll_rate"),
                         ("sensor", Json.str "gyro"),
                         ("value", Json.num 2000)]))).1.shared.cmd_count
      = (cmd0.shared.cmd_count + 1) % U32) := by
  have h := C7_unknown_sensor_config_unchanged cmd0 0 0 1 60
    (Json.obj [("cmd", Json.str "set_poll_rate"),
               ("sensor", Json.str "gyro"),
               ("value", Json.num 2000)]) "gyro"
    (by omega) (by rfl) (by rfl) (by decide) (by decide) (by decide)
  exact ⟨h.1, h.2.2.2.2⟩

/-- C9: a telemetry message built from a snapshot in which only the
WiFi validity flag is set has exactly the one top-level sensor key
wifi; in general a sensor whose validity flag is false contributes no
top-level key at all. -/
theorem C9_invalid_sensors_omitted :
    (∀ snap : Shared,
      snap.wifi_valid = true → snap.battery_valid = false →
      snap.temperature_valid = false →
      topKeys (telemetry_build_json snap) = ["wifi"])
    ∧ (∀ snap : Shared,
        (snap.battery_valid = false →
          "battery" ∉ topKeys (telemetry_build_json snap))
        ∧ (snap.temperature_valid = false →
          "temperature" ∉ topKeys (telemetry_build_json snap))
        ∧ (snap.wifi_valid = false →
          "wifi" ∉ topKeys (telemetry_build_json snap))) := by
  constructor
  · intro snap hw hb ht
    simp [telemetry_build_json, build_json_payload, topKeys, hw, hb, ht]
  · intro snap
    refine ⟨fun hb => ?_, fun ht => ?_, fun hw => ?_⟩
    · simp only [telemetry_build_json, build_json_payload, topKeys, hb]
      split <;> split <;> split <;> simp_all
    · simp only [telemetry_build_json, build_json_payload, topKeys, ht]
      split <;> split <;> split <;> simp_all
    · simp only [telemetry_build_json, build_json_payload, topKeys, hw]
      split <;> split <;> split <;> simp_all

/-- C9 witness: the only-WiFi snapshot. -/
theorem C9_invalid_sensors_omitted_witness :
    topKeys (telemetry_build_json { shared0 with wifi_valid := true }) = ["wifi"] :=
  C9_invalid_sensors_omitted.1 { shared0 with wifi_valid := true } rfl rfl rfl

/-- C5 counterexample: a well-formed envelope whose command name is 32
characters long has its name recorded truncated to 31 characters, not
as sent; the counter does increment. -/
theorem C5_long_name_counterexample :
    ((command_handler cmd0 0 0 1 48
        (some (Json.obj [("cmd",
          Json.str "aaaaaaaaaaaaaaaaaaaaaaaaaaaaaaab")]))).1.shared.cmd_count = 1)
    ∧ ((command_handler cmd0 0 0 1 48
        (some (Json.obj [("cmd",
          Json.str "aaaaaaaaaaaaaaaaaaaaaaaaaaaaaaab")]))).1.shared.last_cmd
        = "aaaaaaaaaaaaaaaaaaaaaaaaaaaaaaa")
    ∧ ((command_handler cmd0 0 0 1 48
        (some (Json.obj [("cmd",
          Json.str "aaaaaaaaaaaaaaaaaaaaaaaaaaaaaaab")]))).1.shared.last_cmd
        ≠ "aaaaaaaaaaaaaaaaaaaaaaaaaaaaaaab") := by
  refine ⟨rfl, rfl, by decide⟩

/-- C5 amended: every payload parsing as an object with a string cmd
field increments the command counter by one (u32) and records the
command name truncated to 31 characters, recognized or not; an
unrecognized name causes no further state change and stages nothing. -/
theorem C5_envelope_counted_amended
    (st : CmdState) (startTick now freq len : Nat) (root : Json) (c : String)
    (hlen : len < 512)
    (hcmd : getObjectItem root "cmd" = some (Json.str c)) :
    ((command_handler st startTick now freq len (some root)).1.shared.cmd_count
        = (st.shared.cmd_count + 1) % U32)
      ∧ ((command_handler st startTick now freq len (some root)).1.shared.last_cmd
          = strncpy31 c)
      ∧ (c ≠ "set_interval" → c ≠ "set_poll_rate" → c ≠ "ping" →
          c ≠ "identify" → c ≠ "publish_now" →
          command_handler st startTick now freq len (some root)
            = ({ st with shared := { st.shared with
                  cmd_count := (st.shared.cmd_count + 1) % U32,
                  last_cmd := strncpy31 c } },
               [HAct.parseCall])) := by
  have h512 : ¬ (512 ≤ len) := by omega
  refine ⟨?_, ?_, fun h1 h2 h3 h4 h5 => ?_⟩
  · simp only [command_handler, command_handler_obj, if_neg h512, hcmd]
    exact command_handler_cmd_count st startTick now freq root c
  · simp only [command_handler, command_handler_obj, if_neg h512, hcmd]
    exact command_handler_cmd_last st startTick now freq root c
  · simp only [command_handler, command_handler_obj, if_neg h512, hcmd,
      command_handler_cmd, if_neg h1, if_neg h2, if_neg h3, if_neg h4, if_neg h5]

/-- C5 amended witness: a well-formed but unrecognized command. -/
theorem C5_envelope_counted_amended_witness :
    ((40 : Nat) < 512)
      ∧ (command_handler cmd0 0 0 1 40
          (some (Json.obj [("cmd", Json.str "reboot")]))).1.shared.cmd_count = 1 % U32
      ∧ (command_handler cmd0 0 0 1 40
          (some (Json.obj [("cmd", Json.str "reboot")]))).1.shared.last_cmd
          = strncpy31 "reboot" := by
  have h := C5_envelope_counted_amended cmd0 0 0 1 40
    (Json.obj [("cmd", Json.str "reboot")]) "reboot" (by omega) (by rfl)
  exact ⟨by omega, h.1, h.2.1⟩

/-! Fixtures for the producer-thread claim: the state after the
set_poll_rate battery 60000 command, and a producer iteration in which
only the battery sensor is due. -/

def producer_state0 : ProducerState :=
  { next_battery := 0, next_temp := 1, next_wifi := 1 }

def producer_env0 : ProducerEnv :=
  { bCheck := 0, bSched := 0, tCheck := 0, tSched := 0, wCheck := 0, wSched := 0,
    freq := 19200000,
    battery_read := none, temp_read := none, wifi_read := none }

/-- C3: the claim that the producer thread uses the runtime-configured
poll interval is refuted by the code: after set_poll_rate sets the
battery poll interval to 60000, the producer still reschedules the
battery poll with the compile-time constant SENSOR_POLL_BATTERY_MS
(30000); in general the rescheduling offset never reads the shared
runtime configuration. -/
theorem C3_producer_ignores_runtime_poll_interval :
    ((command_handler cmd0 0 0 1 70
        (some (Json.obj [("cmd", Json.str "set_poll_rate"),
                         ("sensor", Json.str "battery"),
                         ("value", Json.num 60000)]))).1.shared.poll_battery_ms = 60000)
    ∧ ((producer_iter
          (command_handler cmd0 0 0 1 70
            (some (Json.obj [("cmd", Json.str "set_poll_rate"),
                             ("sensor", Json.str "battery"),
                             ("value", Json.num 60000)]))).1.shared
          producer_state0 producer_env0).2.next_battery
        = ms_to_ticks SENSOR_POLL_BATTERY_MS producer_env0.freq)
    ∧ (ms_to_ticks SENSOR_POLL_BATTERY_MS producer_env0.freq
        ≠ ms_to_ticks 60000 producer_env0.freq)
    ∧ (∀ (sh : Shared) (st : ProducerState) (e : ProducerEnv),
        (producer_iter sh st e).2.next_battery
          = if tick_expired e.bCheck st.next_battery
            then e.bSched + ms_to_ticks SENSOR_POLL_BATTERY_MS e.freq
            else st.next_battery) := by
  refine ⟨rfl, rfl, by decide, ?_⟩
  intro sh st e
  simp only [producer_iter]
  repeat' split
  all_goals rfl

/-! Helper lemmas about the event traces of the four loop blocks. -/

/-- The reconnection block emits nothing, a failed attempt, or a
successful attempt immediately followed by the subscribe. -/
theorem reconnect_trace_cases (s : LoopState) (e : LoopEnv) :
    (reconnect_block s e).2 = []
      ∨ (reconnect_block s e).2 = [Ev.connAttempt, Ev.connFail]
      ∨ (reconnect_block s e).2 = [Ev.connAttempt, Ev.connOk, Ev.subscribeCmd] := by
  unfold reconnect_block
  dsimp only
  repeat' split
  all_goals simp

/-- The yield block emits nothing, a bare yield, or a yield followed by
one response publish. -/
theorem yield_trace_cases (s : LoopState) (e : LoopEnv) :
    (yield_block s e).2 = []
      ∨ (yield_block s e).2 = [Ev.yieldCall]
      ∨ ∃ p, (yield_block s e).2 = [Ev.yieldCall, Ev.pubResponse p] := by
  unfold yield_block
  dsimp only
  repeat' split
  all_goals simp

/-- The silent-disconnect sync emits nothing or one forced disconnect. -/
theorem silent_trace_cases (s : LoopState) (e : LoopEnv) :
    (silent_sync_block s e).2 = [] ∨ (silent_sync_block s e).2 = [Ev.forceDisc] := by
  unfold silent_sync_block
  repeat' split
  all_goals simp

/-- The publish block emits nothing, a successful publish, or a failed
publish followed by the forced disconnect. -/
theorem publish_trace_cases (s : LoopState) (e : LoopEnv) :
    (publish_block s e).2 = []
      ∨ (publish_block s e).2 = [Ev.pubTelemetry true]
      ∨ (publish_block s e).2 = [Ev.pubTelemetry false, Ev.forceDisc] := by
  unfold publish_block
  dsimp only
  repeat' split
  all_goals simp

/-- Checker for the subscription-ordering invariant over an event
trace: after a successful connect, a subscribe must occur before any
yield. The flag records a connect success still awaiting subscribe. -/
def subAfterConn (flag : Bool) : List Ev → Bool
  | [] => true
  | Ev.connOk :: r => subAfterConn true r
  | Ev.subscribeCmd :: r => subAfterConn false r
  | Ev.yieldCall :: r => if flag then false else subAfterConn flag r
  | Ev.connAttempt :: r => subAfterConn flag r
  | Ev.connFail :: r => subAfterConn flag r
  | Ev.pubResponse _ :: r => subAfterConn flag r
  | Ev.pubTelemetry _ :: r => subAfterConn flag r
  | Ev.forceDisc :: r => subAfterConn flag r

/-- C1: in every control-loop iteration and in the startup sequence,
a successful connect is followed by the command-topic subscribe before
any MQTTYield call, so the yield never dispatches with the
subscription not yet re-issued. -/
theorem C1_subscribe_before_yield :
    (∀ (s : LoopState) (e : LoopEnv), subAfterConn false (loop_iter s e).2 = true)
      ∧ (∀ (s : LoopState) (e : LoopEnv),
          subAfterConn false (startup_connect s e).2 = true) := by
  constructor
  · intro s e
    simp only [loop_iter]
    rcases reconnect_trace_cases s e with h1 | h1 | h1 <;>
      rcases yield_trace_cases (reconnect_block s e).1 e with h2 | h2 | ⟨p, h2⟩ <;>
        rcases silent_trace_cases (yield_block (reconnect_block s e).1 e).1 e
          with h3 | h3 <;>
          rcases publish_trace_cases
              (silent_sync_block (yield_block (reconnect_block s e).1 e).1 e).1 e
            with h4 | h4 | h4 <;>
            simp [h1, h2, h3, h4, subAfterConn]
  · intro s e
    unfold startup_connect
    dsimp only
    split
    · simp [subAfterConn]
    · simp [subAfterConn]

/-- Sequence of backoff delays produced by repeated failures, starting
from the configured initial delay. -/
def delaySeq : Nat → Nat
  | 0 => MQTT_RECONNECT_DELAY_MS
  | k + 1 => backoff_next (delaySeq k)

/-- Loop state fixture: startup state with a 4000 ms backoff pending. -/
def loop_witness_state : LoopState :=
  { cmd := cmd0, isconnected := false, subscribed := false, net_open := false,
    last_publish := 0, next_reconnect := 0, reconnect_delay_ms := 4000 }

/-- Loop environment fixture: the broker refuses the TCP connect. -/
def loop_witness_env_fail : LoopEnv :=
  { now := 100, freq := 19200000, start_tick := 0,
    tcp_ok := false, connack_ok := false, incoming := [],
    yield_keeps_conn := true, json_built := true, publish_ok := true }

/-- Success flag of a connect attempt: TCP connect and CONNACK must
both succeed. -/
theorem mqtt_try_connect_flag (s : LoopState) (e : LoopEnv) :
    (mqtt_try_connect s e).2 = (e.tcp_ok && e.connack_ok) := by
  unfold mqtt_try_connect
  split
  · split <;> simp_all
  · simp_all

/-- C2: a failed attempt schedules the next attempt at now plus the
current delay and only then advances the delay (doubling, capped); a
successful attempt resets the delay to the initial value; and the
delay sequence under repeated failures is exactly
min(2^k times 1000, 30000) from the initial 1000 with cap 30000. -/
theorem C2_backoff_schedule :
    (∀ (s : LoopState) (e : LoopEnv),
      s.cmd.shared.mqtt_state = MqttState.disconnected →
      s.next_reconnect ≤ e.now →
      (e.tcp_ok && e.connack_ok) = false →
      (reconnect_block s e).1.next_reconnect
          = (e.now + s.reconnect_delay_ms * e.freq / 1000) % U64
        ∧ (reconnect_block s e).1.reconnect_delay_ms
          = backoff_next s.reconnect_delay_ms)
    ∧ (∀ (s : LoopState) (e : LoopEnv),
        s.cmd.shared.mqtt_state = MqttState.disconnected →
        s.next_reconnect ≤ e.now →
        (e.tcp_ok && e.connack_ok) = true →
        (reconnect_block s e).1.reconnect_delay_ms = MQTT_RECONNECT_DELAY_MS)
    ∧ (∀ k, delaySeq k
        = min (MQTT_RECONNECT_DELAY_MS * 2 ^ k) MQTT_RECONNECT_MAX_MS) := by
  refine ⟨?_, ?_, ?_⟩
  · intro s e hstate htime hfail
    have hflag : ¬ ((mqtt_try_connect (setMqttState s MqttState.reconnecting) e).2 = true) := by
      rw [mqtt_try_connect_flag, hfail]
      simp
    unfold reconnect_block
    dsimp only
    rw [if_pos ⟨hstate, htime⟩, if_neg hflag]
    exact ⟨rfl, rfl⟩
  · intro s e hstate htime hok
    have hflag : (mqtt_try_connect (setMqttState s MqttState.reconnecting) e).2 = true := by
      rw [mqtt_try_connect_flag, hok]
    unfold reconnect_block
    dsimp only
    rw [if_pos ⟨hstate, htime⟩, if_pos hflag]
    rfl
  · intro k
    induction k with
    | zero => decide
    | succ n ih =>
      have hstep : delaySeq (n + 1) = backoff_next (delaySeq n) := rfl
      rw [hstep, ih]
      simp only [backoff_next, U32, MQTT_RECONNECT_MAX_MS, MQTT_RECONNECT_DELAY_MS]
      rw [pow_succ]
      have hle : min (1000 * 2 ^ n) 30000 ≤ 30000 := min_le_right _ _
      have hmod : min (1000 * 2 ^ n) 30000 * 2 % 4294967296
          = min (1000 * 2 ^ n) 30000 * 2 := Nat.mod_eq_of_lt (by omega)
      rw [hmod]
      generalize (2 : Nat) ^ n = a at *
      split <;> omega

/-- C2 witness: a concrete failed attempt from the initial state with
delay 4000 schedules at now plus 4000 ms of ticks and doubles to 8000;
the sequence value at step 5 is the cap. -/
theorem C2_backoff_schedule_witness :
    (loop_witness_state.cmd.shared.mqtt_state = MqttState.disconnected
      ∧ loop_witness_state.next_reconnect ≤ loop_witness_env_fail.now
      ∧ (loop_witness_env_fail.tcp_ok && loop_witness_env_fail.connack_ok) = false)
    ∧ (reconnect_block loop_witness_state loop_witness_env_fail).1.next_reconnect
        = (100 + 4000 * 19200000 / 1000) % U64
    ∧ (reconnect_block loop_witness_state loop_witness_env_fail).1.reconnect_delay_ms
        = 8000
    ∧ delaySeq 5 = 30000 := by
  have h := C2_backoff_schedule.1 loop_witness_state loop_witness_env_fail
    rfl (by decide) rfl
  refine ⟨⟨rfl, by decide, rfl⟩, h.1, ?_, ?_⟩
  · rw [h.2]; decide
  · have h5 := C2_backoff_schedule.2.2 5
    rw [h5]; decide

/-- Helper: when the interval has elapsed, the client is connected,
the JSON build succeeds and the publish fails, the publish block tears
the connection down in place: transport closed, state DISCONNECTED,
next reconnect scheduled at the initial delay, backoff reset. -/
theorem publish_block_fail (s : LoopState) (e : LoopEnv)
    (hconn : s.isconnected = true)
    (hdue : ms_to_ticks s.cmd.shared.telemetry_interval_ms e.freq
      ≤ e.now - s.last_publish)
    (hjson : e.json_built = true)
    (hpub : e.publish_ok = false) :
    ((publish_block s e).1.cmd.shared.mqtt_state = MqttState.disconnected)
      ∧ ((publish_block s e).1.net_open = false)
      ∧ ((publish_block s e).1.next_reconnect
          = (e.now + MQTT_RECONNECT_DELAY_MS * e.freq / 1000) % U64)
      ∧ ((publish_block s e).1.reconnect_delay_ms = MQTT_RECONNECT_DELAY_MS)
      ∧ ((publish_block s e).2 = [Ev.pubTelemetry false, Ev.forceDisc]) := by
  by_cases hpn : s.cmd.publish_now = true <;>
    simp [publish_block, mqtt_force_disconnect, setMqttState,
      hconn, hdue, hjson, hpub, hpn]

/-- C8: a failed telemetry publish while connected forces the
disconnect within the same loop iteration: the resulting iteration
state is DISCONNECTED with the transport closed and the next reconnect
scheduled at the initial delay, and the forced disconnect event is in
this iteration's own trace. -/
theorem C8_publish_failure_forces_disconnect
    (s : LoopState) (e : LoopEnv)
    (hstate : s.cmd.shared.mqtt_state = MqttState.connected)
    (hconn : s.isconnected = true)
    (hkeep : e.yield_keeps_conn = true)
    (hinc : e.incoming = [])
    (hdue : ms_to_ticks s.cmd.shared.telemetry_interval_ms e.freq
      ≤ e.now - s.last_publish)
    (hjson : e.json_built = true)
    (hpub : e.publish_ok = false) :
    ((loop_iter s e).1.cmd.shared.mqtt_state = MqttState.disconnected)
      ∧ ((loop_iter s e).1.net_open = false)
      ∧ ((loop_iter s e).1.next_reconnect
          = (e.now + MQTT_RECONNECT_DELAY_MS * e.freq / 1000) % U64)
      ∧ ((loop_iter s e).1.reconnect_delay_ms = MQTT_RECONNECT_DELAY_MS)
      ∧ (Ev.forceDisc ∈ (loop_iter s e).2) := by
  have hrec : reconnect_block s e = (s, []) := by
    unfold reconnect_block
    rw [if_neg]
    rintro ⟨h1, _⟩
    rw [hstate] at h1
    exact absurd h1 (by decide)
  have hyc : (yield_block s e).1.isconnected = true := by
    by_cases hresp : s.cmd.has_response = true <;>
      by_cases hsub : s.subscribed = true <;>
        simp [yield_block, yield_dispatch, hconn, hkeep, hinc, hresp, hsub]
  have hysh : (yield_block s e).1.cmd.shared = s.cmd.shared := by
    by_cases hresp : s.cmd.has_response = true <;>
      by_cases hsub : s.subscribed = true <;>
        simp [yield_block, yield_dispatch, hconn, hkeep, hinc, hresp, hsub]
  have hylp : (yield_block s e).1.last_publish = s.last_publish := by
    by_cases hresp : s.cmd.has_response = true <;>
      by_cases hsub : s.subscribed = true <;>
        simp [yield_block, yield_dispatch, hconn, hkeep, hinc, hresp, hsub]
  have hsil : silent_sync_block (yield_block s e).1 e = ((yield_block s e).1, []) := by
    unfold silent_sync_block
    rw [if_neg]
    rintro ⟨h1, _⟩
    rw [hyc] at h1
    exact absurd h1 (by decide)
  have hfail := publish_block_fail (yield_block s e).1 e hyc
    (by rw [hysh, hylp]; exact hdue) hjson hpub
  simp only [loop_iter, hrec, hsil]
  refine ⟨hfail.1, hfail.2.1, hfail.2.2.1, hfail.2.2.2.1, ?_⟩
  rw [hfail.2.2.2.2]
  simp

/-- Loop state fixture: a connected session with the publish due. -/
def loop_conn_state : LoopState :=
  { cmd := { cmd0 with shared := { shared0 with mqtt_state := MqttState.connected } },
    isconnected := true, subscribed := true, net_open := true,
    last_publish := 0, next_reconnect := 0, reconnect_delay_ms := 1000 }

/-- Loop environment fixture: the telemetry publish fails. -/
def loop_env_pubfail : LoopEnv :=
  { now := 96000000000, freq := 19200000, start_tick := 0,
    tcp_ok := true, connack_ok := true, incoming := [],
    yield_keeps_conn := true, json_built := true, publish_ok := false }

/-- C8 witness: the concrete connected state with a due, failing
publish lands in DISCONNECTED with the reconnect scheduled. -/
theorem C8_publish_failure_forces_disconnect_witness :
    (loop_conn_state.cmd.shared.mqtt_state = MqttState.connected
      ∧ loop_conn_state.isconnected = true
      ∧ ms_to_ticks loop_conn_state.cmd.shared.telemetry_interval_ms
          loop_env_pubfail.freq
        ≤ loop_env_pubfail.now - loop_conn_state.last_publish)
    ∧ ((loop_iter loop_conn_state loop_env_pubfail).1.cmd.shared.mqtt_state
        = MqttState.disconnected)
    ∧ ((loop_iter loop_conn_state loop_env_pubfail).1.reconnect_delay_ms = 1000) := by
  have h := C8_publish_failure_forces_disconnect loop_conn_state loop_env_pubfail
    rfl rfl rfl rfl (by decide) rfl rfl
  exact ⟨⟨rfl, rfl, by decide⟩, h.1, h.2.2.2.1⟩

/-- Predicate picking the response-publish events of a trace. -/
def isPubResponse : Ev → Bool
  | Ev.pubResponse _ => true
  | _ => false

/-- Helper: if the recognized-command chain stages a response (starting
from a state with the staging flag cleared), the staged payload does
not depend on the previously staged buffer. -/
theorem command_handler_cmd_overwrite (st : CmdState) (b : String)
    (startTick now freq : Nat) (root : Json) (c : String)
    (h : (command_handler_cmd { st with has_response := false }
        startTick now freq root c).1.has_response = true) :
    (command_handler_cmd { st with response_buf := b }
        startTick now freq root c).1.response_buf
      = (command_handler_cmd st startTick now freq root c).1.response_buf := by
  by_cases h1 : c = "set_interval"
  · unfold command_handler_cmd at h ⊢
    dsimp only at h ⊢
    simp only [if_pos h1] at h ⊢
    rcases hv : getObjectItem root "value" with _ | j
    · simp only [hv] at h
      simp at h
    · cases j <;> simp only [hv] at h ⊢ <;> first | rfl | simp at h
  by_cases h2 : c = "set_poll_rate"
  · unfold command_handler_cmd at h ⊢
    dsimp only at h ⊢
    simp only [if_neg h1, if_pos h2] at h ⊢
    rcases hs : getObjectItem root "sensor" with _ | j
    · simp only [hs] at h
      simp at h
    · rcases hv : getObjectItem root "value" with _ | j2
      · cases j <;> simp only [hs, hv] at h ⊢ <;> simp at h
      · cases j <;> cases j2 <;> simp only [hs, hv] at h ⊢ <;>
          first | rfl | simp at h
  by_cases h3 : c = "ping"
  · unfold command_handler_cmd at h ⊢
    dsimp only at h ⊢
    simp only [if_neg h1, if_neg h2, if_pos h3] at h ⊢
  by_cases h4 : c = "identify"
  · unfold command_handler_cmd at h ⊢
    dsimp only at h ⊢
    simp only [if_neg h1, if_neg h2, if_neg h3, if_pos h4] at h
    simp at h
  by_cases h5 : c = "publish_now"
  · unfold command_handler_cmd at h ⊢
    dsimp only at h ⊢
    simp only [if_neg h1, if_neg h2, if_neg h3, if_neg h4, if_pos h5] at h
    simp at h
  · unfold command_handler_cmd at h ⊢
    dsimp only at h ⊢
    simp only [if_neg h1, if_neg h2, if_neg h3, if_neg h4, if_neg h5] at h
    simp at h

/-- Helper: the overwrite property lifted to the full handler. -/
theorem command_handler_overwrite (st : CmdState) (b : String)
    (startTick now freq len : Nat) (p : Option Json)
    (h : (command_handler { st with has_response := false }
        startTick now freq len p).1.has_response = true) :
    (command_handler { st with response_buf := b }
        startTick now freq len p).1.response_buf
      = (command_handler st startTick now freq len p).1.response_buf := by
  by_cases h512 : 512 ≤ len
  · simp only [command_handler, if_pos h512] at h
    simp at h
  rcases p with _ | root
  · simp only [command_handler, if_neg h512] at h
    simp at h
  simp only [command_handler, command_handler_obj, if_neg h512] at h ⊢
  rcases hc : getObjectItem root "cmd" with _ | j
  · simp only [hc] at h
    simp at h
  cases j with
  | str c =>
    simp only [hc] at h ⊢
    exact command_handler_cmd_overwrite st b startTick now freq root c h
  | null => simp only [hc] at h; simp at h
  | jbool b2 => simp only [hc] at h; simp at h
  | num n => simp only [hc] at h; simp at h
  | obj fields => simp only [hc] at h; simp at h

/-- C10: the response staging area holds one pending response: a loop
iteration publishes at most one response message; a handler run that
stages a response computes the staged payload without reading the
previously staged buffer (so an unpublished earlier response is
overwritten); and the yield dispatches multiple messages of one
processIncoming call sequentially through the same single slot. -/
theorem C10_single_response_slot :
    (∀ (s : LoopState) (e : LoopEnv),
      ((loop_iter s e).2.countP isPubResponse) ≤ 1)
    ∧ (∀ (st : CmdState) (b : String) (startTick now freq len : Nat)
        (p : Option Json),
        (command_handler { st with has_response := false }
            startTick now freq len p).1.has_response = true →
        (command_handler { st with response_buf := b }
            startTick now freq len p).1.response_buf
          = (command_handler st startTick now freq len p).1.response_buf)
    ∧ (∀ (c : CmdState) (startTick now freq : Nat) (m1 m2 : Nat × Option Json),
        yield_dispatch c startTick now freq [m1, m2]
          = (command_handler (command_handler c startTick now freq m1.1 m1.2).1
              startTick now freq m2.1 m2.2).1) := by
  refine ⟨?_, ?_, ?_⟩
  · intro s e
    simp only [loop_iter]
    rcases reconnect_trace_cases s e with h1 | h1 | h1 <;>
      rcases yield_trace_cases (reconnect_block s e).1 e with h2 | h2 | ⟨p, h2⟩ <;>
        rcases silent_trace_cases (yield_block (reconnect_block s e).1 e).1 e
          with h3 | h3 <;>
          rcases publish_trace_cases
              (silent_sync_block (yield_block (reconnect_block s e).1 e).1 e).1 e
            with h4 | h4 | h4 <;>
            simp [h1, h2, h3, h4, isPubResponse]
  · intro st b startTick now freq len p h
    exact command_handler_overwrite st b startTick now freq len p h
  · intro c startTick now freq m1 m2
    rfl

/-- C10 witness: two response-producing commands dispatched in one
yield leave only the second payload staged, and a ping staged from a
state with a stale buffer ignores that buffer. -/
theorem C10_single_response_slot_witness :
    ((command_handler { cmd0 with has_response := false } 0 5 1 20
        (some (Json.obj [("cmd", Json.str "ping")]))).1.has_response = true)
    ∧ ((command_handler { cmd0 with response_buf := "stale" } 0 5 1 20
        (some (Json.obj [("cmd", Json.str "ping")]))).1.response_buf
      = (command_handler cmd0 0 5 1 20
          (some (Json.obj [("cmd", Json.str "ping")]))).1.response_buf) := by
  refine ⟨rfl, ?_⟩
  exact C10_single_response_slot.2.1 cmd0 "stale" 0 5 1 20
    (some (Json.obj [("cmd", Json.str "ping")])) rfl

end SwitchMQTT
